import Mathlib

/-!
Verification development for the discord-tts-bridge repository.

The TypeScript sources are shallowly embedded: every effectful platform
call (child-process execution, HTTP, playback) is abstracted as an
oracle field of an explicit environment record, device state is threaded
explicitly, and each modelled method returns its outcome together with a
trace of the observable events (log entries, engine invocations,
playback calls) it emits.
-/

/-- Platform detection, from utils.ts (platform.isWindows / platform.isMacOS);
`other` covers every remaining process.platform value. -/
inductive Platform where
  | windows
  | macos
  | other
deriving DecidableEq

/-! ## Speech synthesis engine (src/tts.ts) -/

/-- TTSOptions from tts.ts: voice name, speaking rate, volume. -/
structure TTSOptions where
  voice : String
  rate : Int
  volume : Int
deriving DecidableEq

/-- TTSResult from tts.ts: in-memory audio buffer plus format metadata. -/
structure TTSResult where
  audioBuffer : List Nat
  format : String
  sampleRate : Option Nat
  channels : Option Nat
deriving DecidableEq

/-- The engine field of UnifiedTTSOptions in tts.ts. -/
inductive Engine where
  | system
  | voicevox
deriving DecidableEq

/-- Outcomes of the effectful callees of TTSEngine.synthesize:
the VOICEVOX buffer synthesis (voicevoxEngine.synthesizeToBuffer), the
Windows SAPI PowerShell invocation (base64-decoded bytes), and the macOS
say invocation (raw PCM bytes on stdout). -/
structure SynthEnv where
  voicevoxOut : Except String (List Nat)
  winOut : Except String (List Nat)
  macOut : Except String (List Nat)

/-- One engine invocation, as recorded for the synthesis trace:
`primary` is a call into the VOICEVOX engine, `fallback` a call into the
system-TTS path together with the TTSOptions it was given. -/
inductive Attempt where
  | primary (text : String)
  | fallback (text : String) (opts : TTSOptions)
deriving DecidableEq

/-- The default fallback voice of tts.ts line 80:
platform.isWindows() picks Haruka, otherwise Kyoko. -/
def fallbackVoice (p : Platform) : String :=
  if p = Platform.windows then "Haruka" else "Kyoko"

/-- The default fallback voice parameters of tts.ts lines 79-83. -/
def fallbackOpts (p : Platform) : TTSOptions :=
  { voice := fallbackVoice p, rate := 230, volume := 50 }

/-- TTSEngine.synthesizeWithWindowsTTS: on success wraps the decoded
bytes as a 22050 Hz mono wav result, on failure rethrows. -/
def synthesizeWithWindowsTTS (env : SynthEnv) (text : String) (opts : TTSOptions) :
    Except String TTSResult × List Attempt :=
  match env.winOut with
  | Except.ok buf =>
      (Except.ok { audioBuffer := buf, format := "wav",
                   sampleRate := some 22050, channels := some 1 },
       [Attempt.fallback text opts])
  | Except.error e => (Except.error e, [Attempt.fallback text opts])

/-- TTSEngine.synthesizeWithMacOSTTS: on success wraps the captured
stdout as a 22050 Hz mono raw PCM result, on failure rethrows. -/
def synthesizeWithMacOSTTS (env : SynthEnv) (text : String) (opts : TTSOptions) :
    Except String TTSResult × List Attempt :=
  match env.macOut with
  | Except.ok buf =>
      (Except.ok { audioBuffer := buf, format := "raw",
                   sampleRate := some 22050, channels := some 1 },
       [Attempt.fallback text opts])
  | Except.error e => (Except.error e, [Attempt.fallback text opts])

/-- TTSEngine.synthesizeWithSystemTTS: platform dispatch; any other
platform throws an unsupported-platform error. -/
def synthesizeWithSystemTTS (p : Platform) (env : SynthEnv) (text : String)
    (opts : TTSOptions) : Except String TTSResult × List Attempt :=
  match p with
  | Platform.windows => synthesizeWithWindowsTTS env text opts
  | Platform.macos => synthesizeWithMacOSTTS env text opts
  | Platform.other =>
      (Except.error "unsupported platform", [Attempt.fallback text opts])

/-- TTSEngine.synthesizeWithVoicevox (tts.ts lines 56-85): tries the
VOICEVOX buffer synthesis; on success wraps it as a 24000 Hz mono wav
result; on any error logs and falls back to the system TTS with the
default fallback voice parameters. The voicevoxEngine field is present
whenever this is reached (constructor invariant), so the initial guard
cannot throw. -/
def synthesizeWithVoicevox (p : Platform) (env : SynthEnv) (text : String) :
    Except String TTSResult × List Attempt :=
  match env.voicevoxOut with
  | Except.ok buf =>
      (Except.ok { audioBuffer := buf, format := "wav",
                   sampleRate := some 24000, channels := some 1 },
       [Attempt.primary text])
  | Except.error _ =>
      let sys := synthesizeWithSystemTTS p env text (fallbackOpts p)
      (sys.1, Attempt.primary text :: sys.2)

/-- TTSEngine.synthesize (tts.ts lines 49-54): with engine voicevox the
voicevoxEngine field is set by the constructor, so the conjunction in
the guard holds and the VOICEVOX path is taken; otherwise system TTS. -/
def ttsSynthesize (engine : Engine) (p : Platform) (env : SynthEnv)
    (text : String) (opts : TTSOptions) : Except String TTSResult × List Attempt :=
  match engine with
  | Engine.voicevox => synthesizeWithVoicevox p env text
  | Engine.system => synthesizeWithSystemTTS p env text opts

/-- Counts the system-TTS invocations in a synthesis trace. -/
def fallbackCount (t : List Attempt) : Nat :=
  (t.filter (fun a => match a with
    | Attempt.fallback _ _ => true
    | _ => false)).length

/-! ## Pipeline orchestrator (DiscordTTSBridge.handleMessage, part_004) -/

/-- The configuration fields of DiscordTTSBridge that handleMessage
reads: the playback-selection flags and the voice parameters it packs
into TTSOptions. -/
structure BridgeCfg where
  useAfplay : Bool
  enableDualOutput : Bool
  voice : String
  rate : Int
  volume : Int

/-- Outcomes of the effectful calls handleMessage makes: ttsEngine.synthesize
(returning an audio file path), audioPlayer.switchToBlackHole, and the three
playback methods. Each is allowed to fail so that the finally-discipline is
proved against every outcome. ttsEngine.cleanupFile is not present under
src/; modelled from the spec: temporary-artifact cleanup is a guaranteed
release action executed on every exit path, so it is modelled as a call
that always returns normally (matching AudioPlayer.cleanupTempFile in
audio.ts, which swallows its errors). -/
structure BridgeEnv where
  synthOut : Except String String
  switchOut : Except String Unit
  playAfplayOut : Except String Unit
  playDualOut : Except String Unit
  playAudioOut : Except String Unit

/-- Observable events of one handleMessage invocation, in order. -/
inductive BridgeEv where
  | warnBusy
  | callSynthesize (text : String) (opts : TTSOptions)
  | callSwitchBlackhole
  | callPlayAfplay (path : String)
  | callPlayDual (path : String)
  | callPlayAudio (path : String)
  | logError (msg : String)
  | infoDone
  | callCleanup (path : String)
deriving DecidableEq

/-- True on the events that invoke synthesis or audio delivery. -/
def isInvocation : BridgeEv → Bool
  | BridgeEv.callSynthesize _ _ => true
  | BridgeEv.callPlayAfplay _ => true
  | BridgeEv.callPlayDual _ => true
  | BridgeEv.callPlayAudio _ => true
  | _ => false

/-- The playback step of handleMessage (part_004 lines 106-112):
useAfplay selects playWithAfplay, else enableDualOutput selects
playWithDualOutput, else playAudio. -/
def bridgePlay (cfg : BridgeCfg) (env : BridgeEnv) (path : String) :
    Except String Unit × BridgeEv :=
  if cfg.useAfplay then (env.playAfplayOut, BridgeEv.callPlayAfplay path)
  else if cfg.enableDualOutput then (env.playDualOut, BridgeEv.callPlayDual path)
  else (env.playAudioOut, BridgeEv.callPlayAudio path)

/-- DiscordTTSBridge.handleMessage (part_004 lines 83-125). Input: the
current isProcessing flag; output: the flag after the invocation returns
together with the event trace. While busy the event is dropped with a
warning. Otherwise the flag is raised, the try block runs synthesis,
device switch and playback, any error is caught and logged, and the
finally block cleans up the temporary file (when one was produced) and
lowers the flag. -/
def handleMessage (cfg : BridgeCfg) (env : BridgeEnv) (text _author : String)
    (busy : Bool) : Bool × List BridgeEv :=
  if busy then (true, [BridgeEv.warnBusy])
  else
    let opts : TTSOptions := { voice := cfg.voice, rate := cfg.rate, volume := cfg.volume }
    match env.synthOut with
    | Except.error e =>
        (false, [BridgeEv.callSynthesize text opts, BridgeEv.logError e])
    | Except.ok path =>
        match env.switchOut with
        | Except.error e =>
            (false, [BridgeEv.callSynthesize text opts, BridgeEv.callSwitchBlackhole,
                     BridgeEv.logError e, BridgeEv.callCleanup path])
        | Except.ok _ =>
            let pl := bridgePlay cfg env path
            match pl.1 with
            | Except.error e =>
                (false, [BridgeEv.callSynthesize text opts, BridgeEv.callSwitchBlackhole,
                         pl.2, BridgeEv.logError e, BridgeEv.callCleanup path])
            | Except.ok _ =>
                (false, [BridgeEv.callSynthesize text opts, BridgeEv.callSwitchBlackhole,
                         pl.2, BridgeEv.infoDone, BridgeEv.callCleanup path])

/-! ## Device router and audio delivery (src/src/audio.ts) -/

/-- The process-wide current output device, as mutated by the platform
switch commands. -/
structure DevSt where
  current : String
deriving DecidableEq

/-- AudioPlayer configuration (audio.ts constructor): virtual-sink name,
dual-output enable flag, optional monitor (speaker) device. The option
models the possibly-undefined speakerDevice field. -/
structure ACfg where
  blackholeDevice : String
  enableDualOutput : Bool
  speakerDevice : Option String

/-- JS truthiness of the speakerDevice field: undefined and the empty
string are falsy. -/
def truthyStr : Option String → Bool
  | none => false
  | some s => !(s == "")

/-- Outcomes of the platform commands AudioPlayer spawns. Playback
outcomes that depend on where the audio is routed are functions of the
current device at the moment of the call. -/
structure AEnv where
  platform : Platform
  macSwitchOk : String → Bool
  nircmdOk : String → Bool
  psInfoOk : Bool
  getOk : Bool
  winFirstDevice : Option String
  pcmPlayOk : String → Bool
  filePlayOk : String → Bool
  psWavPlayOk : Bool
  winDualPsOk : Bool
  playSoundOk : Bool
  tempWriteOk : Bool
  listOk : Bool
  listStdout : String

/-- Observable events of the audio layer, in order of occurrence. -/
inductive AEv where
  | logDebug (msg : String)
  | logInfo (msg : String)
  | logWarn (msg : String)
  | logError (msg : String)
  | switchCmd (device : String)
  | playPCM (device : String) (sampleRate : Nat) (channels : Nat)
  | playFile (device : String)
  | playPS
  | playDualPS
  | playSound
  | tempWrite
  | tempCleanup
deriving DecidableEq

/-- True exactly on warning-level log events. -/
def isWarnEv : AEv → Bool
  | AEv.logWarn _ => true
  | _ => false

/-- AudioPlayer.switchMacOSAudioDevice: SwitchAudioSource -s; on success
the default output device becomes the target, on failure the exec error
is rethrown and the device is unchanged. -/
def switchMacOSAudioDevice (env : AEnv) (st : DevSt) (name : String) :
    Except String Unit × DevSt × List AEv :=
  if env.macSwitchOk name then
    (Except.ok (), { current := name }, [AEv.switchCmd name, AEv.logInfo "switched"])
  else
    (Except.error "SwitchAudioSource failed", st, [AEv.switchCmd name])

/-- AudioPlayer.switchWindowsAudioDevice: tries NirCmd first; if NirCmd
is unavailable it only logs device information (both inner branches
catch their own errors), so this method never rejects. -/
def switchWindowsAudioDevice (env : AEnv) (st : DevSt) (name : String) :
    Except String Unit × DevSt × List AEv :=
  if env.nircmdOk name then
    (Except.ok (), { current := name }, [AEv.switchCmd name, AEv.logInfo "switched nircmd"])
  else if env.psInfoOk then
    (Except.ok (), st, [AEv.switchCmd name, AEv.logDebug "nircmd unavailable",
                        AEv.logInfo "current device", AEv.logWarn "ps switch skipped",
                        AEv.logInfo "nircmd download"])
  else
    (Except.ok (), st, [AEv.switchCmd name, AEv.logDebug "nircmd unavailable",
                        AEv.logWarn "device info error", AEv.logWarn "switch skipped"])

/-- AudioPlayer.switchToDevice (audio.ts lines 437-451): platform
dispatch wrapped in a catch that logs the error and a continuation
warning and returns normally. -/
def switchToDevice (env : AEnv) (st : DevSt) (name : String) :
    Except String Unit × DevSt × List AEv :=
  match env.platform with
  | Platform.windows =>
      match switchWindowsAudioDevice env st name with
      | (Except.ok _, st1, t) => (Except.ok (), st1, t)
      | (Except.error e, st1, t) =>
          (Except.ok (), st1, t ++ [AEv.logError e, AEv.logWarn "switch skipped"])
  | Platform.macos =>
      match switchMacOSAudioDevice env st name with
      | (Except.ok _, st1, t) => (Except.ok (), st1, t)
      | (Except.error e, st1, t) =>
          (Except.ok (), st1, t ++ [AEv.logError e, AEv.logWarn "switch skipped"])
  | Platform.other =>
      (Except.ok (), st, [AEv.logWarn "switch unsupported"])

/-- AudioPlayer.getCurrentMacOSDevice: SwitchAudioSource -c; empty
trimmed output or a failed command yields null. -/
def getCurrentMacOSDevice (env : AEnv) (st : DevSt) : Option String :=
  if env.getOk then (if st.current = "" then none else some st.current) else none

/-- AudioPlayer.getCurrentWindowsDevice: WMI query for the first OK
sound device; independent of the current default device. -/
def getCurrentWindowsDevice (env : AEnv) : Option String :=
  if env.getOk then env.winFirstDevice else none

/-- AudioPlayer.getCurrentOutputDevice: platform dispatch, null on
other platforms or on failure. -/
def getCurrentOutputDevice (env : AEnv) (st : DevSt) : Option String :=
  match env.platform with
  | Platform.windows => getCurrentWindowsDevice env
  | Platform.macos => getCurrentMacOSDevice env st
  | Platform.other => none

/-- AudioPlayer.playRawPCMWithAfplay: streams the buffer to afplay on
stdin with explicit sample rate and channel count (defaults 22050/1);
a nonzero exit rejects. -/
def playRawPCMWithAfplay (env : AEnv) (st : DevSt) (r : TTSResult) :
    Except String Unit × DevSt × List AEv :=
  let ev := AEv.playPCM st.current (r.sampleRate.getD 22050) (r.channels.getD 1)
  if env.pcmPlayOk st.current then (Except.ok (), st, [ev])
  else (Except.error "afplay exited nonzero", st, [ev])

/-- AudioPlayer.playWAVWithPowerShell: in-memory wav playback on
Windows via PowerShell; rethrows on failure. -/
def playWAVWithPowerShell (env : AEnv) (st : DevSt) :
    Except String Unit × DevSt × List AEv :=
  if env.psWavPlayOk then (Except.ok (), st, [AEv.playPS])
  else (Except.error "powershell play failed", st, [AEv.playPS])

/-- AudioPlayer.playWithAfplay (file path variant): on macOS runs
afplay on the file and rethrows on failure; elsewhere delegates to the
generic player. -/
def playWithAfplay (env : AEnv) (st : DevSt) :
    Except String Unit × DevSt × List AEv :=
  match env.platform with
  | Platform.macos =>
      if env.filePlayOk st.current then (Except.ok (), st, [AEv.playFile st.current])
      else (Except.error "afplay failed", st, [AEv.playFile st.current])
  | _ =>
      if env.playSoundOk then (Except.ok (), st, [AEv.playSound])
      else (Except.error "play-sound failed", st, [AEv.playSound])

/-- AudioPlayer.playAudioFromBuffer (audio.ts lines 36-56): direct
afplay stdin playback for macOS raw PCM, direct PowerShell playback for
Windows wav, otherwise a temporary file is written, played with the
generic player and removed in a finally block (cleanupTempFile never
throws). -/
def playAudioFromBuffer (env : AEnv) (st : DevSt) (r : TTSResult) :
    Except String Unit × DevSt × List AEv :=
  if env.platform = Platform.macos ∧ r.format = "raw" then
    playRawPCMWithAfplay env st r
  else if env.platform = Platform.windows ∧ r.format = "wav" then
    playWAVWithPowerShell env st
  else
    if env.tempWriteOk then
      let pr := if env.playSoundOk then Except.ok () else Except.error "play-sound failed"
      (pr, st, [AEv.tempWrite, AEv.playSound, AEv.tempCleanup])
    else (Except.error "writeFileSync failed", st, [])

/-- AudioPlayer.playOnSpecificMacOSDeviceFromBuffer (audio.ts lines
209-220): captures the current device, switches to the target, streams
the PCM buffer, and in a finally block switches back to the captured
device when one was captured; a playback error propagates after the
restore. -/
def playOnSpecificMacOSDeviceFromBuffer (env : AEnv) (st : DevSt) (r : TTSResult)
    (name : String) : Except String Unit × DevSt × List AEv :=
  let orig := getCurrentOutputDevice env st
  let s1 := switchToDevice env st name
  let pr := playRawPCMWithAfplay env s1.2.1 r
  let s2 := match orig with
    | some d => switchToDevice env pr.2.1 d
    | none => (Except.ok (), pr.2.1, [])
  (pr.1, s2.2.1, s1.2.2 ++ pr.2.2 ++ s2.2.2)

/-- AudioPlayer.playOnSpecificMacOSDevice (audio.ts lines 419-431):
same scoped-switch discipline around a file-based afplay playback. -/
def playOnSpecificMacOSDevice (env : AEnv) (st : DevSt) (name : String) :
    Except String Unit × DevSt × List AEv :=
  let orig := getCurrentOutputDevice env st
  let s1 := switchToDevice env st name
  let pr := playWithAfplay env s1.2.1
  let s2 := match orig with
    | some d => switchToDevice env pr.2.1 d
    | none => (Except.ok (), pr.2.1, [])
  (pr.1, s2.2.1, s1.2.2 ++ pr.2.2 ++ s2.2.2)

/-- AudioPlayer.playOnMacOSDevicesFromBuffer: requires a speaker
device; raw PCM goes through two scoped per-device plays started with
Promise.all, modelled as both plays running (virtual sink first) with
the first error reported; other formats go through a temporary file and
the file-based scoped plays with a guaranteed cleanup. -/
def playOnMacOSDevicesFromBuffer (cfg : ACfg) (env : AEnv) (st : DevSt)
    (r : TTSResult) : Except String Unit × DevSt × List AEv :=
  if truthyStr cfg.speakerDevice = false then
    (Except.error "no speaker device", st, [])
  else
    let spk := cfg.speakerDevice.getD ""
    if r.format = "raw" then
      let a := playOnSpecificMacOSDeviceFromBuffer env st r cfg.blackholeDevice
      let b := playOnSpecificMacOSDeviceFromBuffer env a.2.1 r spk
      (match a.1 with
       | Except.error e => Except.error e
       | Except.ok _ => b.1, b.2.1, a.2.2 ++ b.2.2)
    else
      if env.tempWriteOk then
        let a := playOnSpecificMacOSDevice env st cfg.blackholeDevice
        let b := playOnSpecificMacOSDevice env a.2.1 spk
        (match a.1 with
         | Except.error e => Except.error e
         | Except.ok _ => b.1, b.2.1,
         [AEv.tempWrite] ++ a.2.2 ++ b.2.2 ++ [AEv.tempCleanup])
      else (Except.error "writeFileSync failed", st, [])

/-- AudioPlayer.playOnWindowsDevicesFromBuffer: wav buffers are played
on two PowerShell media players; a PowerShell failure is caught, logged
and retried through playAudioFromBuffer; non-wav buffers fall back to a
temporary file. -/
def playOnWindowsDevicesFromBuffer (env : AEnv) (st : DevSt) (r : TTSResult) :
    Except String Unit × DevSt × List AEv :=
  if r.format = "wav" then
    if env.winDualPsOk then (Except.ok (), st, [AEv.playDualPS])
    else
      let f := playAudioFromBuffer env st r
      (f.1, f.2.1, [AEv.playDualPS, AEv.logError "windows dual play failed"] ++ f.2.2)
  else
    if env.tempWriteOk then
      let pr := if env.winDualPsOk then Except.ok () else Except.error "powershell dual failed"
      (pr, st, [AEv.tempWrite, AEv.playDualPS, AEv.tempCleanup])
    else (Except.error "writeFileSync failed", st, [])

/-- The try block of playWithDualOutputFromBuffer (audio.ts lines
64-74): Windows wav to the dual PowerShell path, macOS to the
multi-device path, anything else to single playback. -/
def dualTryBody (cfg : ACfg) (env : AEnv) (st : DevSt) (r : TTSResult) :
    Except String Unit × DevSt × List AEv :=
  if env.platform = Platform.windows ∧ r.format = "wav" then
    playOnWindowsDevicesFromBuffer env st r
  else if env.platform = Platform.macos then
    playOnMacOSDevicesFromBuffer cfg env st r
  else
    playAudioFromBuffer env st r

/-- AudioPlayer.playWithDualOutputFromBuffer (audio.ts lines 59-80):
without the dual flag and a truthy speaker device it is exactly
playAudioFromBuffer; otherwise the try body runs and any failure is
caught, logged at error level, and answered with a single
playAudioFromBuffer whose outcome becomes the outcome of the call. -/
def playWithDualOutputFromBuffer (cfg : ACfg) (env : AEnv) (st : DevSt)
    (r : TTSResult) : Except String Unit × DevSt × List AEv :=
  if !(cfg.enableDualOutput && truthyStr cfg.speakerDevice) then
    playAudioFromBuffer env st r
  else
    match dualTryBody cfg env st r with
    | (Except.ok _, st1, t) => (Except.ok (), st1, t)
    | (Except.error _, st1, t) =>
        let f := playAudioFromBuffer env st1 r
        (f.1, f.2.1, t ++ [AEv.logError "デュアル出力再生エラー"] ++ f.2.2)

/-- Line splitting performed on the enumeration stdout: split on
newlines, trim each line, drop empties. -/
def cleanLines (s : String) : List String :=
  ((s.splitOn "\n").map (fun x => x.trim)).filter (fun x => !(x == ""))

/-- AudioPlayer.listMacOSDevices: parses SwitchAudioSource output; on
command failure logs at debug level and returns a Built-in Output
placeholder. -/
def listMacOSDevices (env : AEnv) : List String × List AEv :=
  if env.listOk then (cleanLines env.listStdout, [])
  else (["Built-in Output"], [AEv.logDebug "mac list failed"])

/-- AudioPlayer.listWindowsDevices: parses the WMI output; on command
failure logs at debug level and returns a Default Device placeholder. -/
def listWindowsDevices (env : AEnv) : List String × List AEv :=
  if env.listOk then (cleanLines env.listStdout, [])
  else (["Default Device"], [AEv.logDebug "win list failed"])

/-- AudioPlayer.listOutputDevices (audio.ts lines 521-534): platform
dispatch; the surrounding catch is unreachable because both platform
helpers already handle their own failures, so the method always
resolves. -/
def listOutputDevices (env : AEnv) : Except String (List String) × List AEv :=
  match env.platform with
  | Platform.windows =>
      let r := listWindowsDevices env
      (Except.ok r.1, r.2)
  | Platform.macos =>
      let r := listMacOSDevices env
      (Except.ok r.1, r.2)
  | Platform.other => (Except.ok [], [])

/-- Concrete macOS environment for the C4 witness; both playback
oracles throw, exercising the error exit path. -/
def c4env : AEnv :=
  { platform := Platform.macos, macSwitchOk := fun _ => true,
    nircmdOk := fun _ => false, psInfoOk := true, getOk := true,
    winFirstDevice := none, pcmPlayOk := fun _ => false,
    filePlayOk := fun _ => false, psWavPlayOk := true, winDualPsOk := true,
    playSoundOk := true, tempWriteOk := true, listOk := true, listStdout := "" }

/-- Concrete device state for the C4 witness. -/
def c4st : DevSt := { current := "MacBook Pro Speakers" }

/-- Concrete raw-PCM synthesis result for the C4 witness. -/
def c4res : TTSResult :=
  { audioBuffer := [1], format := "raw", sampleRate := some 22050, channels := some 1 }

/-- macOS environment whose device-enumeration command fails, for the
C7 counterexample. -/
def c7env : AEnv :=
  { platform := Platform.macos, macSwitchOk := fun _ => true,
    nircmdOk := fun _ => true, psInfoOk := true, getOk := true,
    winFirstDevice := none, pcmPlayOk := fun _ => true,
    filePlayOk := fun _ => true, psWavPlayOk := true, winDualPsOk := true,
    playSoundOk := true, tempWriteOk := true, listOk := false, listStdout := "" }

/-- Windows environment whose device-enumeration command fails, for the
C7 witness. -/
def c7envW : AEnv :=
  { platform := Platform.windows, macSwitchOk := fun _ => true,
    nircmdOk := fun _ => true, psInfoOk := true, getOk := true,
    winFirstDevice := none, pcmPlayOk := fun _ => true,
    filePlayOk := fun _ => true, psWavPlayOk := true, winDualPsOk := true,
    playSoundOk := true, tempWriteOk := true, listOk := false, listStdout := "" }

/-- Dual-output configuration with a monitor device, for C5. -/
def c5cfg : ACfg :=
  { blackholeDevice := "BlackHole 2ch", enableDualOutput := true,
    speakerDevice := some "Spk" }

/-- macOS environment in which playback routed to the monitor device
Spk fails while every other platform command succeeds, for C5. -/
def c5env : AEnv :=
  { platform := Platform.macos, macSwitchOk := fun _ => true,
    nircmdOk := fun _ => false, psInfoOk := true, getOk := true,
    winFirstDevice := none, pcmPlayOk := fun d => !(d == "Spk"),
    filePlayOk := fun _ => true, psWavPlayOk := true, winDualPsOk := true,
    playSoundOk := true, tempWriteOk := true, listOk := true, listStdout := "" }

/-- Device state for C5. -/
def c5st : DevSt := { current := "MacBook Speakers" }

/-- Raw-PCM synthesis result for C5. -/
def c5res : TTSResult :=
  { audioBuffer := [0], format := "raw", sampleRate := some 24000, channels := some 1 }

/-- Configuration with dual output enabled but no speaker device, for
the C10 witness: dual output silently degrades to single delivery. -/
def c10cfg : ACfg :=
  { blackholeDevice := "BlackHole 2ch", enableDualOutput := true,
    speakerDevice := none }

/-! ## Text normalizer (cleanMessageText in utils.ts, part_000) -/

/-- The regex non-whitespace class, modelled with Char.isWhitespace. -/
def nonWS (c : Char) : Bool := !c.isWhitespace

/-- The list starts with a non-whitespace character. -/
def nsHead : List Char → Bool
  | [] => false
  | c :: _ => nonWS c

/-- The seven characters of the plain scheme in the URL regex. -/
def schemeA : List Char := ['h', 't', 't', 'p', ':', '/', '/']

/-- The eight characters of the secure scheme in the URL regex. -/
def schemeB : List Char := ['h', 't', 't', 'p', 's', ':', '/', '/']

/-- Leftmost match attempt of the URL regex at the head of the list:
the secure scheme is preferred (greedy optional s), each scheme must be
followed by at least one non-whitespace character, and the match
greedily extends over all following non-whitespace characters. Returns
the length of the whole match. -/
def mUrl (l : List Char) : Option Nat :=
  if schemeB.isPrefixOf l && nsHead (l.drop 8) then
    some (8 + ((l.drop 8).takeWhile nonWS).length)
  else if schemeA.isPrefixOf l && nsHead (l.drop 7) then
    some (7 + ((l.drop 7).takeWhile nonWS).length)
  else none

/-- Match attempt of the user-mention regex (angle bracket, at sign,
optional bang, digits, closing bracket) at the head of the list. -/
def mUser (l : List Char) : Option Nat :=
  match l with
  | '<' :: '@' :: rest =>
      match rest with
      | '!' :: r2 =>
          let ds := r2.takeWhile Char.isDigit
          if ds.length = 0 then none
          else match r2.drop ds.length with
               | '>' :: _ => some (4 + ds.length)
               | _ => none
      | _ =>
          let ds := rest.takeWhile Char.isDigit
          if ds.length = 0 then none
          else match rest.drop ds.length with
               | '>' :: _ => some (3 + ds.length)
               | _ => none
  | _ => none

/-- Match attempt of the role-mention regex at the head of the list. -/
def mRole (l : List Char) : Option Nat :=
  match l with
  | '<' :: '@' :: '&' :: rest =>
      let ds := rest.takeWhile Char.isDigit
      if ds.length = 0 then none
      else match rest.drop ds.length with
           | '>' :: _ => some (4 + ds.length)
           | _ => none
  | _ => none

/-- Match attempt of the channel-mention regex at the head of the list. -/
def mChan (l : List Char) : Option Nat :=
  match l with
  | '<' :: '#' :: rest =>
      let ds := rest.takeWhile Char.isDigit
      if ds.length = 0 then none
      else match rest.drop ds.length with
           | '>' :: _ => some (3 + ds.length)
           | _ => none
  | _ => none

/-- Match attempt of the line-break run regex at the head of the list. -/
def mNewline (l : List Char) : Option Nat :=
  match l with
  | '\n' :: _ => some ((l.takeWhile (fun c => c == '\n')).length)
  | _ => none

/-- Global regex replacement scan: at each position the matcher is
tried; a match of length k (every matcher only returns k at least one)
is replaced by the token and scanning resumes after it, otherwise the
character is copied. Fuel bounds the recursion; one unit is spent per
step and every step consumes at least one input character, so fuel
equal to the input length never runs out. -/
def scanRepl (m : List Char → Option Nat) (tok : List Char) :
    Nat → List Char → List Char
  | _, [] => []
  | 0, l => l
  | fuel + 1, c :: rest =>
      match m (c :: rest) with
      | some k => tok ++ scanRepl m tok fuel (rest.drop (k - 1))
      | none => c :: scanRepl m tok fuel rest

/-- One global replacement pass over the whole list. -/
def replaceAll (m : List Char → Option Nat) (tok : List Char) (l : List Char) :
    List Char :=
  scanRepl m tok l.length l

/-- The URL placeholder token. -/
def linkTok : List Char := ['リ', 'ン', 'ク']

/-- The user-mention placeholder token. -/
def userTok : List Char := ['ユ', 'ー', 'ザ', 'ー']

/-- The role-mention placeholder token. -/
def roleTok : List Char := ['ロ', 'ー', 'ル']

/-- The channel-mention placeholder token. -/
def chanTok : List Char := ['チ', 'ャ', 'ン', 'ネ', 'ル']

/-- The sentence terminator replacing line-break runs. -/
def sentenceTok : List Char := ['。']

/-- One emoji-range stripping pass: the character-class regex with the
empty replacement deletes exactly the characters whose code point lies
in the closed range. -/
def stripRange (lo hi : Nat) (l : List Char) : List Char :=
  l.filter (fun c => !(decide (lo ≤ c.toNat) && decide (c.toNat ≤ hi)))

/-- JS String.prototype.trim, modelled with Char.isWhitespace. -/
def trimL (l : List Char) : List Char :=
  ((l.dropWhile Char.isWhitespace).reverse.dropWhile Char.isWhitespace).reverse

/-- The substitution pipeline of cleanMessageText (part_000 lines
30-51): URL replacement, the three mention replacements, line-break
collapsing, the five emoji-range strips, and the final trim. -/
def cleanPipeline (l : List Char) : List Char :=
  let l1 := replaceAll mUrl linkTok l
  let l2 := replaceAll mUser userTok l1
  let l3 := replaceAll mRole roleTok l2
  let l4 := replaceAll mChan chanTok l3
  let l5 := replaceAll mNewline sentenceTok l4
  let l6 := stripRange 0x1F600 0x1F64F l5
  let l7 := stripRange 0x1F300 0x1F5FF l6
  let l8 := stripRange 0x1F680 0x1F6FF l7
  let l9 := stripRange 0x2600 0x26FF l8
  let l10 := stripRange 0x2700 0x27BF l9
  trimL l10

/-- cleanMessageText (part_000 lines 19-52): blank-after-trim input and
input starting with the comment marker yield null; every other input
yields the pipeline output as a string (the final trim included). -/
def cleanMessageText (s : String) : Option String :=
  if trimL s.data = [] then none
  else if s.data.head? = some '#' then none
  else some (String.mk (cleanPipeline s.data))

/-- Whether a URL-regex match occurs at any suffix of the list. -/
def hasUrl : List Char → Bool
  | [] => false
  | c :: rest => (mUrl (c :: rest)).isSome || hasUrl rest

/-- The C8 input: a single emoji in the stripped pictograph range. -/
def c8input : String := String.mk [Char.ofNat 0x1F600]

/-- The C9 input: a URL followed by a broken URL that an emoji splits. -/
def c9input : String :=
  String.mk (['h', 't', 't', 'p', ':', '/', '/', 'a', ' ', 'h', 't']
    ++ [Char.ofNat 0x1F600] ++ ['t', 'p', ':', '/', '/', 'b'])

/-- The normalizer output on the C9 input. -/
def c9output : List Char :=
  ['リ', 'ン', 'ク', ' ', 'h', 't', 't', 'p', ':', '/', '/', 'b']

/-! ## Claims and supporting lemmas -/

/-- C1: with the VOICEVOX engine configured, a Primary failure makes
synthesize retry the same text exactly once on the system (Fallback)
engine with the default fallback voice parameters, and the overall
outcome is exactly the Fallback outcome: the Fallback result is returned
rather than raising, a Fallback failure propagates, and the Fallback is
invoked exactly once (no fallback loop). -/
theorem c1_voicevox_failure_falls_back_once (p : Platform) (env : SynthEnv)
    (text : String) (opts : TTSOptions) (e : String)
    (h : env.voicevoxOut = Except.error e) :
    ttsSynthesize Engine.voicevox p env text opts
      = ((synthesizeWithSystemTTS p env text (fallbackOpts p)).1,
         [Attempt.primary text, Attempt.fallback text (fallbackOpts p)])
    ∧ fallbackCount (ttsSynthesize Engine.voicevox p env text opts).2 = 1 := by
  have htr : (synthesizeWithSystemTTS p env text (fallbackOpts p)).2
      = [Attempt.fallback text (fallbackOpts p)] := by
    cases p with
    | windows =>
        cases hw : env.winOut <;>
          simp [synthesizeWithSystemTTS, synthesizeWithWindowsTTS, hw]
    | macos =>
        cases hm : env.macOut <;>
          simp [synthesizeWithSystemTTS, synthesizeWithMacOSTTS, hm]
    | other => simp [synthesizeWithSystemTTS]
  constructor
  · simp [ttsSynthesize, synthesizeWithVoicevox, h, htr]
  · simp [ttsSynthesize, synthesizeWithVoicevox, h, htr, fallbackCount]

/-- Witness for C1 at a concrete macOS environment whose Primary engine
is down and whose system say command succeeds. -/
theorem c1_witness :
    ({ voicevoxOut := Except.error "ECONNREFUSED",
       winOut := Except.ok [7], macOut := Except.ok [1, 2] } : SynthEnv).voicevoxOut
        = Except.error "ECONNREFUSED"
    ∧ (ttsSynthesize Engine.voicevox Platform.macos
        { voicevoxOut := Except.error "ECONNREFUSED",
          winOut := Except.ok [7], macOut := Except.ok [1, 2] }
        "hello" { voice := "Kyoko", rate := 230, volume := 50 }
        = ((synthesizeWithSystemTTS Platform.macos
              { voicevoxOut := Except.error "ECONNREFUSED",
                winOut := Except.ok [7], macOut := Except.ok [1, 2] }
              "hello" (fallbackOpts Platform.macos)).1,
           [Attempt.primary "hello",
            Attempt.fallback "hello" (fallbackOpts Platform.macos)])
       ∧ fallbackCount (ttsSynthesize Engine.voicevox Platform.macos
            { voicevoxOut := Except.error "ECONNREFUSED",
              winOut := Except.ok [7], macOut := Except.ok [1, 2] }
            "hello" { voice := "Kyoko", rate := 230, volume := 50 }).2 = 1) :=
  ⟨rfl, c1_voicevox_failure_falls_back_once Platform.macos
    { voicevoxOut := Except.error "ECONNREFUSED",
      winOut := Except.ok [7], macOut := Except.ok [1, 2] }
    "hello" { voice := "Kyoko", rate := 230, volume := 50 } "ECONNREFUSED" rfl⟩

/-- C2: an inbound event arriving while the processing flag is set is
dropped with a logged warning: handleMessage returns immediately, the
flag is unchanged, the entire trace is the single warning, and in
particular no synthesis or delivery call is ever made for that event
(nothing is queued or retried). -/
theorem c2_busy_event_dropped (cfg : BridgeCfg) (env : BridgeEnv)
    (text author : String) :
    handleMessage cfg env text author true = (true, [BridgeEv.warnBusy])
    ∧ ((handleMessage cfg env text author true).2.filter isInvocation) = [] := by
  constructor
  · simp [handleMessage]
  · simp [handleMessage, isInvocation]

/-- C3: every handleMessage invocation that passes the busy check lowers
the processing flag before returning, on every exit path: whatever the
outcomes of synthesis, device switching and playback, the returned flag
is false (the finally block runs unconditionally). -/
theorem c3_processing_reset_on_all_paths (cfg : BridgeCfg) (env : BridgeEnv)
    (text author : String) :
    (handleMessage cfg env text author false).1 = false := by
  cases hs : env.synthOut with
  | error e => simp [handleMessage, hs]
  | ok path =>
      cases hw : env.switchOut with
      | error e => simp [handleMessage, hs, hw]
      | ok _ =>
          cases hp : (bridgePlay cfg env path).1 <;>
            simp [handleMessage, hs, hw, hp]

/-- State effect of switchToDevice on macOS: a successful platform
switch moves the current device to the target, a failed one leaves it. -/
theorem switchToDevice_state_macos (env : AEnv) (st : DevSt) (d : String)
    (hp : env.platform = Platform.macos) :
    (switchToDevice env st d).2.1 = if env.macSwitchOk d then { current := d } else st := by
  cases h : env.macSwitchOk d <;>
    simp [switchToDevice, switchMacOSAudioDevice, hp, h]

/-- playWithAfplay does not change the current device. -/
theorem playWithAfplay_state (env : AEnv) (st : DevSt) :
    (playWithAfplay env st).2.1 = st := by
  simp only [playWithAfplay]
  split <;> split <;> rfl

/-- playRawPCMWithAfplay does not change the current device. -/
theorem playRawPCMWithAfplay_state (env : AEnv) (st : DevSt) (r : TTSResult) :
    (playRawPCMWithAfplay env st r).2.1 = st := by
  simp only [playRawPCMWithAfplay]
  split <;> rfl

/-- C4: the scoped per-device playbacks restore the device: on macOS,
when the current-device query works, the observed device name is
nonempty and switching back to it succeeds, the device after
playOnSpecificMacOSDevice and playOnSpecificMacOSDeviceFromBuffer
equals the device observed before the call, for every target device and
every playback outcome (success or throw). -/
theorem c4_scoped_device_play_restores (env : AEnv) (st : DevSt) (name : String)
    (r : TTSResult) (hp : env.platform = Platform.macos) (hg : env.getOk = true)
    (hc : st.current ≠ "") (hs : env.macSwitchOk st.current = true) :
    (playOnSpecificMacOSDevice env st name).2.1 = st
    ∧ (playOnSpecificMacOSDeviceFromBuffer env st r name).2.1 = st := by
  have hget : getCurrentOutputDevice env st = some st.current := by
    simp [getCurrentOutputDevice, hp, getCurrentMacOSDevice, hg, hc]
  constructor
  · simp only [playOnSpecificMacOSDevice, hget]
    rw [playWithAfplay_state, switchToDevice_state_macos env _ _ hp,
        switchToDevice_state_macos env _ _ hp, hs]
    simp
  · simp only [playOnSpecificMacOSDeviceFromBuffer, hget]
    rw [playRawPCMWithAfplay_state, switchToDevice_state_macos env _ _ hp,
        switchToDevice_state_macos env _ _ hp, hs]
    simp

/-- Witness for C4 at a concrete state whose playback action throws:
the device is restored on the error path of both scoped playbacks. -/
theorem c4_witness :
    (c4env.platform = Platform.macos ∧ c4env.getOk = true
      ∧ c4st.current ≠ "" ∧ c4env.macSwitchOk c4st.current = true)
    ∧ (playOnSpecificMacOSDevice c4env c4st "BlackHole 2ch").2.1 = c4st
    ∧ (playOnSpecificMacOSDeviceFromBuffer c4env c4st c4res "BlackHole 2ch").2.1 = c4st :=
  ⟨⟨rfl, rfl, by decide, rfl⟩,
   (c4_scoped_device_play_restores c4env c4st "BlackHole 2ch" c4res rfl rfl
      (by decide) rfl).1,
   (c4_scoped_device_play_restores c4env c4st "BlackHole 2ch" c4res rfl rfl
      (by decide) rfl).2⟩

/-- C6: switchToDevice never propagates an error to its caller: on
every platform, whatever the outcomes of the underlying platform
commands, it resolves normally (the catch logs and continues). -/
theorem c6_switch_never_propagates (env : AEnv) (st : DevSt) (name : String) :
    (switchToDevice env st name).1 = Except.ok () := by
  cases hp : env.platform
  case windows =>
      cases h1 : env.nircmdOk name
      · cases h2 : env.psInfoOk <;>
          simp [switchToDevice, switchWindowsAudioDevice, hp, h1, h2]
      · simp [switchToDevice, switchWindowsAudioDevice, hp, h1]
  case macos =>
      cases h1 : env.macSwitchOk name <;>
        simp [switchToDevice, switchMacOSAudioDevice, hp, h1]
  case other => simp [switchToDevice, hp]

/-- Counterexample to C7: when the macOS enumeration command errors,
listOutputDevices returns the one-element Built-in Output placeholder,
not an empty sequence. -/
theorem c7_counterexample :
    c7env.listOk = false
    ∧ (listOutputDevices c7env).1 = Except.ok ["Built-in Output"]
    ∧ (["Built-in Output"] : List String) ≠ [] :=
  ⟨rfl, rfl, by simp⟩

/-- C7 amended: listOutputDevices never raises, and when the
enumeration command fails it returns the platform's one-element default
placeholder (Built-in Output on macOS, Default Device on Windows);
only unsupported platforms yield an empty sequence. -/
theorem c7_list_failure_placeholder (env : AEnv) :
    (∃ ds, (listOutputDevices env).1 = Except.ok ds)
    ∧ (env.listOk = false →
        (listOutputDevices env).1 = Except.ok
          (match env.platform with
           | Platform.windows => ["Default Device"]
           | Platform.macos => ["Built-in Output"]
           | Platform.other => [])) := by
  constructor
  · cases hp : env.platform
    · exact ⟨(listWindowsDevices env).1, by simp [listOutputDevices, hp]⟩
    · exact ⟨(listMacOSDevices env).1, by simp [listOutputDevices, hp]⟩
    · exact ⟨[], by simp [listOutputDevices, hp]⟩
  · intro hl
    cases hp : env.platform <;>
      simp [listOutputDevices, listWindowsDevices, listMacOSDevices, hp, hl]

/-- Witness for the amended C7 on the Windows placeholder branch. -/
theorem c7_witness :
    c7envW.listOk = false
    ∧ (listOutputDevices c7envW).1 = Except.ok ["Default Device"] :=
  ⟨rfl, (c7_list_failure_placeholder c7envW).2 rfl⟩

/-- Counterexample to C5 as stated: with dual output enabled and a
monitor configured, a forced failure on the monitor device makes the
dual delivery fail, the call falls back and returns success, but the
failure is logged at error level: the trace contains no warning at all,
contradicting the logged-as-a-warning part of the claim. -/
theorem c5_counterexample :
    c5cfg.enableDualOutput = true
    ∧ truthyStr c5cfg.speakerDevice = true
    ∧ (dualTryBody c5cfg c5env c5st c5res).1 = Except.error "afplay exited nonzero"
    ∧ (playWithDualOutputFromBuffer c5cfg c5env c5st c5res).1 = Except.ok ()
    ∧ ((playWithDualOutputFromBuffer c5cfg c5env c5st c5res).2.2.filter isWarnEv) = [] :=
  ⟨rfl, rfl, rfl, rfl, rfl⟩

/-- C5 amended: with dual output enabled and a monitor configured, any
failure of the dual-device delivery is caught, logged at error level,
and answered by a fallback single delivery to the primary sink whose
outcome becomes the outcome of the call, so the dual-output failure is
never propagated as fatal. -/
theorem c5_dual_failure_falls_back_single (cfg : ACfg) (env : AEnv) (st : DevSt)
    (r : TTSResult) (e : String) (st1 : DevSt) (t : List AEv)
    (he : cfg.enableDualOutput = true) (hsp : truthyStr cfg.speakerDevice = true)
    (hd : dualTryBody cfg env st r = (Except.error e, st1, t)) :
    playWithDualOutputFromBuffer cfg env st r
      = ((playAudioFromBuffer env st1 r).1, (playAudioFromBuffer env st1 r).2.1,
         t ++ [AEv.logError "デュアル出力再生エラー"]
           ++ (playAudioFromBuffer env st1 r).2.2) := by
  simp [playWithDualOutputFromBuffer, he, hsp, hd]

/-- Witness for the amended C5 at the concrete failing-monitor
environment. -/
theorem c5_witness :
    c5cfg.enableDualOutput = true
    ∧ truthyStr c5cfg.speakerDevice = true
    ∧ playWithDualOutputFromBuffer c5cfg c5env c5st c5res
        = ((playAudioFromBuffer c5env (dualTryBody c5cfg c5env c5st c5res).2.1 c5res).1,
           (playAudioFromBuffer c5env (dualTryBody c5cfg c5env c5st c5res).2.1 c5res).2.1,
           (dualTryBody c5cfg c5env c5st c5res).2.2
             ++ [AEv.logError "デュアル出力再生エラー"]
             ++ (playAudioFromBuffer c5env (dualTryBody c5cfg c5env c5st c5res).2.1 c5res).2.2) :=
  ⟨rfl, rfl,
   c5_dual_failure_falls_back_single c5cfg c5env c5st c5res "afplay exited nonzero"
     (dualTryBody c5cfg c5env c5st c5res).2.1
     (dualTryBody c5cfg c5env c5st c5res).2.2 rfl rfl rfl⟩

/-- C10: Dual mode requires both the enable flag and a truthy monitor
device name; if either is missing, playWithDualOutputFromBuffer is
exactly playAudioFromBuffer on that result (same outcome, same device
state, same trace). -/
theorem c10_dual_requires_flag_and_speaker (cfg : ACfg) (env : AEnv) (st : DevSt)
    (r : TTSResult)
    (h : cfg.enableDualOutput = false ∨ truthyStr cfg.speakerDevice = false) :
    playWithDualOutputFromBuffer cfg env st r = playAudioFromBuffer env st r := by
  have hb : (cfg.enableDualOutput && truthyStr cfg.speakerDevice) = false := by
    rcases h with h | h <;> simp [h]
  simp [playWithDualOutputFromBuffer, hb]

/-- Witness for C10: enabled dual output without a configured speaker
device behaves exactly as single playback. -/
theorem c10_witness :
    truthyStr c10cfg.speakerDevice = false
    ∧ playWithDualOutputFromBuffer c10cfg c5env c5st c5res
        = playAudioFromBuffer c5env c5st c5res :=
  ⟨rfl, c10_dual_requires_flag_and_speaker c10cfg c5env c5st c5res (Or.inr rfl)⟩

/-- Unfolding of hasUrl on a cons cell. -/
theorem hasUrl_cons (c : Char) (t : List Char) :
    hasUrl (c :: t) = ((mUrl (c :: t)).isSome || hasUrl t) := rfl

/-- scanRepl on the empty list is empty for every fuel. -/
theorem scanRepl_nil (m : List Char → Option Nat) (tok : List Char) (fuel : Nat) :
    scanRepl m tok fuel [] = [] := by
  cases fuel <;> rfl

/-- Step equation of scanRepl with positive fuel on a cons cell. -/
theorem scanRepl_cons (m : List Char → Option Nat) (tok : List Char) (fuel : Nat)
    (c : Char) (rest : List Char) :
    scanRepl m tok (fuel + 1) (c :: rest)
      = match m (c :: rest) with
        | some k => tok ++ scanRepl m tok fuel (rest.drop (k - 1))
        | none => c :: scanRepl m tok fuel rest := rfl

/-- A URL match needs the letter h at its head. -/
theorem mUrl_none_of_head (c : Char) (t : List Char) (h : c ≠ 'h') :
    mUrl (c :: t) = none := by
  have hb : ('h' == c) = false := beq_eq_false_iff_ne.mpr (Ne.symm h)
  simp [mUrl, schemeA, schemeB, List.isPrefixOf, hb]

/-- Conversely, a successful URL match pins the head to h. -/
theorem head_h_of_mUrl_isSome (c : Char) (t : List Char)
    (h : (mUrl (c :: t)).isSome = true) : c = 'h' := by
  by_contra hc
  rw [mUrl_none_of_head c t hc] at h
  simp at h

/-- Characterization of a successful URL match by its two scheme cases. -/
theorem mUrl_isSome_iff (l : List Char) :
    (mUrl l).isSome = true
      ↔ (schemeB.isPrefixOf l && nsHead (l.drop 8)) = true
        ∨ (schemeA.isPrefixOf l && nsHead (l.drop 7)) = true := by
  unfold mUrl
  by_cases hB : (schemeB.isPrefixOf l && nsHead (l.drop 8)) = true
  · simp [hB]
  · by_cases hA : (schemeA.isPrefixOf l && nsHead (l.drop 7)) = true
    · simp [hB, hA]
    · simp [hB, hA]

/-- A placeholder-free prefix of the URL pass output transfers to the
input: if a word without the placeholder head character is a prefix of
the scan output, it is a prefix of the input, and the remaining output
is the scan of the remaining input. -/
theorem scanRepl_transfer :
    ∀ (u : List Char) (fuel : Nat) (l : List Char),
      l.length ≤ fuel → (∀ a ∈ u, a ≠ 'リ') →
      u.isPrefixOf (scanRepl mUrl linkTok fuel l) = true →
      u.isPrefixOf l = true
        ∧ scanRepl mUrl linkTok (fuel - u.length) (l.drop u.length)
            = (scanRepl mUrl linkTok fuel l).drop u.length := by
  intro u
  induction u with
  | nil =>
      intro fuel l hf _ _
      exact ⟨by simp [List.isPrefixOf], by simp⟩
  | cons a u1 ih =>
      intro fuel l hf hu hpre
      cases l with
      | nil =>
          rw [scanRepl_nil] at hpre
          simp [List.isPrefixOf] at hpre
      | cons c rest =>
          cases fuel with
          | zero => simp at hf
          | succ f =>
              rw [scanRepl_cons] at hpre
              cases hm : mUrl (c :: rest) with
              | some k =>
                  rw [hm] at hpre
                  have ha : a ≠ 'リ' := hu a (List.mem_cons_self a u1)
                  have hb : (a == 'リ') = false := beq_eq_false_iff_ne.mpr ha
                  simp [linkTok, List.isPrefixOf, hb] at hpre
              | none =>
                  rw [hm] at hpre
                  simp only [List.isPrefixOf, Bool.and_eq_true] at hpre
                  obtain ⟨hac, hp1⟩ := hpre
                  have hrl : rest.length ≤ f := by
                    simp [List.length_cons] at hf
                    omega
                  obtain ⟨h1, h2⟩ :=
                    ih f rest hrl (fun b hb2 => hu b (List.mem_cons_of_mem a hb2)) hp1
                  refine ⟨by simp [List.isPrefixOf, hac, h1], ?_⟩
                  rw [scanRepl_cons, hm]
                  simp only [List.length_cons, List.drop_succ_cons, Nat.succ_sub_succ]
                  exact h2

/-- A non-whitespace head of the URL pass output forces a
non-whitespace head of the input. -/
theorem nsHead_scanRepl (fuel : Nat) (l : List Char) (hf : l.length ≤ fuel)
    (h : nsHead (scanRepl mUrl linkTok fuel l) = true) : nsHead l = true := by
  cases l with
  | nil =>
      rw [scanRepl_nil] at h
      exact absurd h (by simp [nsHead])
  | cons c rest =>
      cases fuel with
      | zero => simp at hf
      | succ f =>
          rw [scanRepl_cons] at h
          cases hm : mUrl (c :: rest) with
          | some k =>
              have hc : c = 'h' := head_h_of_mUrl_isSome c rest (by rw [hm]; rfl)
              subst hc
              rfl
          | none =>
              rw [hm] at h
              simpa [nsHead] using h

/-- Key step: a position that did not match in the input cannot start
a URL match against the scanned remainder of the output. -/
theorem mUrl_none_scanRepl (c : Char) (rest : List Char) (fuel : Nat)
    (hf : rest.length ≤ fuel) (h : mUrl (c :: rest) = none) :
    mUrl (c :: scanRepl mUrl linkTok fuel rest) = none := by
  by_contra hne
  have hsome : (mUrl (c :: scanRepl mUrl linkTok fuel rest)).isSome = true :=
    Option.ne_none_iff_isSome.mp hne
  have hch : c = 'h' := head_h_of_mUrl_isSome c _ hsome
  subst hch
  rw [mUrl_isSome_iff] at hsome
  rcases hsome with hB | hA
  · rw [Bool.and_eq_true] at hB
    obtain ⟨hpre, hns⟩ := hB
    have hpre1 : List.isPrefixOf ['t', 't', 'p', 's', ':', '/', '/']
        (scanRepl mUrl linkTok fuel rest) = true := by
      simpa [schemeB, List.isPrefixOf] using hpre
    obtain ⟨hpr, heq⟩ :=
      scanRepl_transfer ['t', 't', 'p', 's', ':', '/', '/'] fuel rest hf
        (by decide) hpre1
    have heq7 : scanRepl mUrl linkTok (fuel - 7) (rest.drop 7)
        = (scanRepl mUrl linkTok fuel rest).drop 7 := by simpa using heq
    have hdrop : ('h' :: scanRepl mUrl linkTok fuel rest).drop 8
        = (scanRepl mUrl linkTok fuel rest).drop 7 := rfl
    rw [hdrop, ← heq7] at hns
    have hlen : (rest.drop 7).length ≤ fuel - 7 := by
      rw [List.length_drop]
      omega
    have hns2 : nsHead (rest.drop 7) = true :=
      nsHead_scanRepl (fuel - 7) (rest.drop 7) hlen hns
    have hcontra : (mUrl ('h' :: rest)).isSome = true := by
      rw [mUrl_isSome_iff]
      left
      rw [Bool.and_eq_true]
      refine ⟨by simp [schemeB, List.isPrefixOf, hpr], ?_⟩
      have hdrop2 : ('h' :: rest).drop 8 = rest.drop 7 := rfl
      rw [hdrop2]
      exact hns2
    rw [h] at hcontra
    simp at hcontra
  · rw [Bool.and_eq_true] at hA
    obtain ⟨hpre, hns⟩ := hA
    have hpre1 : List.isPrefixOf ['t', 't', 'p', ':', '/', '/']
        (scanRepl mUrl linkTok fuel rest) = true := by
      simpa [schemeA, List.isPrefixOf] using hpre
    obtain ⟨hpr, heq⟩ :=
      scanRepl_transfer ['t', 't', 'p', ':', '/', '/'] fuel rest hf
        (by decide) hpre1
    have heq6 : scanRepl mUrl linkTok (fuel - 6) (rest.drop 6)
        = (scanRepl mUrl linkTok fuel rest).drop 6 := by simpa using heq
    have hdrop : ('h' :: scanRepl mUrl linkTok fuel rest).drop 7
        = (scanRepl mUrl linkTok fuel rest).drop 6 := rfl
    rw [hdrop, ← heq6] at hns
    have hlen : (rest.drop 6).length ≤ fuel - 6 := by
      rw [List.length_drop]
      omega
    have hns2 : nsHead (rest.drop 6) = true :=
      nsHead_scanRepl (fuel - 6) (rest.drop 6) hlen hns
    have hcontra : (mUrl ('h' :: rest)).isSome = true := by
      rw [mUrl_isSome_iff]
      right
      rw [Bool.and_eq_true]
      refine ⟨by simp [schemeA, List.isPrefixOf, hpr], ?_⟩
      have hdrop2 : ('h' :: rest).drop 7 = rest.drop 6 := rfl
      rw [hdrop2]
      exact hns2
    rw [h] at hcontra
    simp at hcontra

/-- The URL replacement scan leaves no URL match anywhere in its
output, for every input and sufficient fuel. -/
theorem hasUrl_scanRepl_false :
    ∀ (fuel : Nat) (l : List Char), l.length ≤ fuel →
      hasUrl (scanRepl mUrl linkTok fuel l) = false := by
  intro fuel
  induction fuel with
  | zero =>
      intro l hl
      have hnil : l = [] := List.length_eq_zero.mp (Nat.le_zero.mp hl)
      subst hnil
      rw [scanRepl_nil]
      rfl
  | succ f ih =>
      intro l hl
      cases l with
      | nil =>
          rw [scanRepl_nil]
          rfl
      | cons c rest =>
          have hrl : rest.length ≤ f := by
            simp [List.length_cons] at hl
            omega
          rw [scanRepl_cons]
          cases hm : mUrl (c :: rest) with
          | some k =>
              have hZ := ih (rest.drop (k - 1)) (by rw [List.length_drop]; omega)
              show hasUrl ('リ' :: 'ン' :: 'ク'
                  :: scanRepl mUrl linkTok f (rest.drop (k - 1))) = false
              rw [hasUrl_cons, hasUrl_cons, hasUrl_cons,
                  mUrl_none_of_head _ _ (by decide),
                  mUrl_none_of_head _ _ (by decide),
                  mUrl_none_of_head _ _ (by decide), hZ]
              rfl
          | none =>
              show hasUrl (c :: scanRepl mUrl linkTok f rest) = false
              rw [hasUrl_cons, mUrl_none_scanRepl c rest f hrl hm, ih rest hrl]
              rfl

/-- Counterexample to C9 as stated: this input contains a URL-like
substring, yet the normalizer output still contains one, because the
emoji stripped after URL replacement joins ht and tp:// into a fresh
URL. -/
theorem c9_counterexample :
    hasUrl c9input.data = true
    ∧ cleanMessageText c9input = some (String.mk c9output)
    ∧ hasUrl c9output = true :=
  ⟨by decide, by decide, by decide⟩

/-- C9 amended: the URL-substitution pass itself replaces every
URL-like substring and its output contains no URL-like substring; the
no-raw-URL guarantee holds for the URL pass output, while later emoji
stripping may re-create a URL-like substring in the final output. -/
theorem c9_url_pass_leaves_no_url (s : String) :
    hasUrl (replaceAll mUrl linkTok s.data) = false :=
  hasUrl_scanRepl_false s.data.length s.data le_rfl

/-- Counterexample to C8 as stated: an input that the substitutions
empty out passes both initial guards, and the normalizer returns the
ordinary empty string, not the null skip signal. -/
theorem c8_counterexample :
    trimL c8input.data ≠ []
    ∧ c8input.data.head? ≠ some '#'
    ∧ cleanPipeline c8input.data = []
    ∧ cleanMessageText c8input = some ""
    ∧ cleanMessageText c8input ≠ none :=
  ⟨by decide, by decide, by decide, by decide, by decide⟩

/-- C8 amended: when the input passes the blank and comment-marker
guards and the substitutions leave an empty string after the final
trim, cleanMessageText returns the empty string (a falsy value the
caller treats as skip), not null; null is reserved for the two initial
guards. -/
theorem c8_empty_after_subst_is_empty_string (s : String)
    (h1 : ¬ trimL s.data = []) (h2 : ¬ s.data.head? = some '#')
    (h3 : cleanPipeline s.data = []) :
    cleanMessageText s = some "" := by
  unfold cleanMessageText
  rw [if_neg h1, if_neg h2, h3]

/-- Witness for the amended C8 at the concrete emoji-only input. -/
theorem c8_witness :
    (¬ trimL c8input.data = [] ∧ ¬ c8input.data.head? = some '#'
      ∧ cleanPipeline c8input.data = [])
    ∧ cleanMessageText c8input = some "" :=
  ⟨⟨by decide, by decide, by decide⟩,
   c8_empty_after_subst_is_empty_string c8input (by decide) (by decide) (by decide)⟩
